import Mathlib

/-!
Shallow embedding of the phase execution and reporting engine of
`src/genesis_reconstruction.py`: the `Status` and `Phase` enums, the
`ExecutionLog` dataclass, `GenesisBootstrap.execute_phase`, the phase loop and
report finalization of `main`, and `phase_11_self_test`.

Modelling choices: Python wall-clock reads (`datetime.now()`) are opaque
inputs (`Timing`); an exception raised by a phase action is an
`Except.error e` outcome where `e` is Python's `str(e)`; the insertion-ordered
dict `execution_report["phases"]` is an association list with Python dict
assignment semantics; absent dict keys / `None` fields are `Option.none`.
-/

/-- The `Status` enum of execution statuses. -/
inductive Status
  | PENDING
  | RUNNING
  | SUCCESS
  | WARNING
  | ERROR
  | SKIPPED
deriving DecidableEq, Repr

/-- The string payload (`.value`) of each `Status` member. -/
def Status.value : Status → String
  | .PENDING => "⏳"
  | .RUNNING => "🔄"
  | .SUCCESS => "✅"
  | .WARNING => "⚠️"
  | .ERROR => "❌"
  | .SKIPPED => "⊘"

/-- A member of the `Phase` enum: its symbolic `name` and its 1-based ordinal
`value`. -/
structure Phase where
  name : String
  value : Nat
deriving DecidableEq, Repr

def Phase.INITIALIZATION : Phase := ⟨"INITIALIZATION", 1⟩

def Phase.FILESYSTEM : Phase := ⟨"FILESYSTEM", 2⟩

def Phase.CONFIG_MGMT : Phase := ⟨"CONFIG_MGMT", 3⟩

def Phase.LOGGING : Phase := ⟨"LOGGING", 4⟩

def Phase.DATABASE : Phase := ⟨"DATABASE", 5⟩

def Phase.ANALYZER : Phase := ⟨"ANALYZER", 6⟩

def Phase.QUALITY_GATES : Phase := ⟨"QUALITY_GATES", 7⟩

def Phase.AI_COMMANDER : Phase := ⟨"AI_COMMANDER", 8⟩

def Phase.ORCHESTRATOR : Phase := ⟨"ORCHESTRATOR", 9⟩

def Phase.AGENTS : Phase := ⟨"AGENTS", 10⟩

def Phase.TOOL_REGISTRY : Phase := ⟨"TOOL_REGISTRY", 11⟩

def Phase.INJECTION_ENGINE : Phase := ⟨"INJECTION_ENGINE", 12⟩

def Phase.MIGRATION : Phase := ⟨"MIGRATION", 13⟩

def Phase.DASHBOARD : Phase := ⟨"DASHBOARD", 14⟩

def Phase.SELF_TEST : Phase := ⟨"SELF_TEST", 15⟩

/-- The `ExecutionLog` dataclass: one structured record per executed phase.
The `errors` field defaults to `None`. -/
structure ExecutionLog where
  timestamp : String
  phase : String
  status : String
  message : String
  duration_ms : Int
  errors : Option (List String) := none
deriving DecidableEq, Repr

/-- One value of the `execution_report["phases"]` dict. The success branch of
`execute_phase` stores the keys `status`, `duration_ms`, `timestamp`; the
error branch stores `status`, `error`, `duration_ms`. A key the branch does
not store is `none`. -/
structure ReportEntry where
  status : String
  duration_ms : Int
  timestamp : Option String := none
  error : Option String := none
deriving DecidableEq, Repr

/-- The `execution_report` dict: `start_time`, `phases` and `metrics` are set
in `GenesisBootstrap.__init__`; `end_time`, `success_count` and
`total_phases` are added at the end of `main`. -/
structure ExecutionReport where
  start_time : String
  phases : List (String × ReportEntry) := []
  metrics : List (String × Int) := []
  end_time : Option String := none
  success_count : Option Nat := none
  total_phases : Option Nat := none
deriving DecidableEq, Repr

/-- Python dict assignment `d[k] = v` on an insertion-ordered dict: replace
the value in place when the key exists, append otherwise. -/
def dictInsert : List (String × ReportEntry) → String → ReportEntry →
    List (String × ReportEntry)
  | [], k, v => [(k, v)]
  | p :: rest, k, v => if p.1 = k then (k, v) :: rest else p :: dictInsert rest k v

/-- Python dict lookup `d[k]` (as an `Option`). -/
def dictGet : List (String × ReportEntry) → String → Option ReportEntry
  | [], _ => none
  | p :: rest, k => if p.1 = k then some p.2 else dictGet rest k

/-- Python values a phase action may return (`True`, `False`, `None`, a
string); `execute_phase` never inspects the returned value. -/
inductive PyVal
  | bool (b : Bool)
  | none
  | str (s : String)
deriving DecidableEq, Repr

/-- Opaque wall-clock data of one `execute_phase` call: `start_time`'s
isoformat, the completion timestamp, and the measured duration in
milliseconds. -/
structure Timing where
  ts_start : String
  ts_done : String
  duration_ms : Int
deriving DecidableEq, Repr

/-- The mutable state of `GenesisBootstrap` that `execute_phase` updates:
`self.logs` and `self.execution_report`. -/
structure BootstrapState where
  logs : List ExecutionLog
  execution_report : ExecutionReport
deriving DecidableEq, Repr

/-- `GenesisBootstrap.execute_phase`: run one phase action with full error
handling. `outcome` is the action's result — `.ok v` when the awaited call
returns the value `v`, `.error e` when it raises an exception with
`str(e) = e`. Returns the updated state and the boolean `execute_phase`
returns (`True` on the success branch, `False` on the except branch). -/
def execute_phase (st : BootstrapState) (phase : Phase)
    (outcome : Except String PyVal) (t : Timing) : BootstrapState × Bool :=
  match outcome with
  | .ok _ =>
    let log : ExecutionLog :=
      { timestamp := t.ts_done, phase := phase.name,
        status := Status.SUCCESS.value,
        message := "Phase erfolgreich abgeschlossen",
        duration_ms := t.duration_ms, errors := none }
    let entry : ReportEntry :=
      { status := "SUCCESS", duration_ms := t.duration_ms,
        timestamp := some t.ts_start, error := none }
    let report := { st.execution_report with
      phases := dictInsert st.execution_report.phases phase.name entry }
    ({ logs := st.logs ++ [log], execution_report := report }, true)
  | .error e =>
    let log : ExecutionLog :=
      { timestamp := t.ts_done, phase := phase.name,
        status := Status.ERROR.value,
        message := "Fehler: " ++ e,
        duration_ms := t.duration_ms, errors := some [e] }
    let entry : ReportEntry :=
      { status := "ERROR", duration_ms := t.duration_ms,
        timestamp := none, error := some e }
    let report := { st.execution_report with
      phases := dictInsert st.execution_report.phases phase.name entry }
    ({ logs := st.logs ++ [log], execution_report := report }, false)

/-- One scheduled phase of `main`'s loop: the `Phase` member, the outcome its
action produces, and the wall-clock data of its `execute_phase` call. -/
structure PhaseExec where
  phase : Phase
  outcome : Except String PyVal
  timing : Timing

/-- The loop of `main` over the registered phases: each iteration awaits
`execute_phase` and increments `success_count` when it returned `True`. -/
def runLoop : BootstrapState → List PhaseExec → BootstrapState × Nat
  | st, [] => (st, 0)
  | st, it :: rest =>
    let r := execute_phase st it.phase it.outcome it.timing
    let rr := runLoop r.1 rest
    (rr.1, (if r.2 then 1 else 0) + rr.2)

/-- `phase_11_self_test`: evaluate every named boolean probe and return the
conjunction `all_passed` (initial value `True`, folded with `and` in order).
The probe values are supplied by the environment (filesystem existence
checks). -/
def phase_11_self_test (checks : List (String × Bool)) : Bool :=
  checks.foldl (fun all_passed c => all_passed && c.2) true

/-- Everything `main` produces: the accumulated logs, the finalized
`execution_report`, and the values of the printed summary. -/
structure MainResult where
  logs : List ExecutionLog
  report : ExecutionReport
  success_count : Nat
  self_test_success : Bool
  total_phases : Nat
  overall_ok : Bool
deriving Repr

/-- The orchestration of `main`: run every registered phase through
`execute_phase` accumulating `success_count`, run the self-check phase
through `execute_phase` (its action `phase_11_self_test` only evaluates
booleans, hence returns normally with the value `all_passed`), then set
`end_time`, `success_count` and `total_phases` on the report. The summary
prints `success_count`, `self_test_success`, and the overall status
(`success_count == len(phases) and self_test_success`). -/
def mainRun (start_time : String) (items : List PhaseExec)
    (checks : List (String × Bool)) (selfT : Timing) (end_time : String) :
    MainResult :=
  let st0 : BootstrapState :=
    { logs := [], execution_report := { start_time := start_time } }
  let r1 := runLoop st0 items
  let r2 := execute_phase r1.1 Phase.SELF_TEST
    (.ok (.bool (phase_11_self_test checks))) selfT
  { logs := r2.1.logs,
    report := { r2.1.execution_report with
      end_time := some end_time,
      success_count := some r1.2,
      total_phases := some items.length },
    success_count := r1.2,
    self_test_success := r2.2,
    total_phases := items.length,
    overall_ok := (r1.2 == items.length) && r2.2 }

/-- The `phases` list built in `main`, in source order: the ten registered
(Phase, executor) pairs. The executors are opaque actions; only the `Phase`
members matter for ordinal claims. -/
def mainPhases : List Phase :=
  [Phase.FILESYSTEM, Phase.CONFIG_MGMT, Phase.LOGGING, Phase.DATABASE,
   Phase.ANALYZER, Phase.QUALITY_GATES, Phase.AI_COMMANDER,
   Phase.ORCHESTRATOR, Phase.INJECTION_ENGINE, Phase.DASHBOARD]

/-- The ordinals (`Phase.value`) of the phases a run executes, in execution
order: the ten registered phases of `main` followed by the self-check. -/
def executedOrdinals : List Nat :=
  (mainPhases ++ [Phase.SELF_TEST]).map (fun p => p.value)

/-- One assignment `nm = v` in a Python `Enum` class body — the construction
semantics `class Phase(Enum)` goes through: assigning to a member name that
already exists raises `TypeError: Attempted to reuse key` at class-body
execution time (before anything else runs); an assignment whose value equals
an existing member's value creates an alias of that member — no error and no
new canonical member. -/
def enumStep (acc : Except String (List Phase)) (p : String × Nat) :
    Except String (List Phase) :=
  match acc with
  | .error e => .error e
  | .ok members =>
    if members.any (fun m => m.name = p.1) then
      .error ("TypeError: Attempted to reuse key: " ++ p.1)
    else if members.any (fun m => m.value = p.2) then
      .ok members
    else
      .ok (members ++ [⟨p.1, p.2⟩])

/-- Constructing an `Enum` class from the (name, value) assignments of its
body, in order. -/
def buildEnum (body : List (String × Nat)) : Except String (List Phase) :=
  body.foldl enumStep (.ok [])

/-- Whether an action outcome is a normal return. -/
def isOk : Except String PyVal → Bool
  | .ok _ => true
  | .error _ => false

/-- The `ExecutionLog` record `execute_phase` appends for a given outcome. -/
def phaseLog (p : Phase) (o : Except String PyVal) (t : Timing) : ExecutionLog :=
  match o with
  | .ok _ =>
    { timestamp := t.ts_done, phase := p.name, status := Status.SUCCESS.value,
      message := "Phase erfolgreich abgeschlossen",
      duration_ms := t.duration_ms, errors := none }
  | .error e =>
    { timestamp := t.ts_done, phase := p.name, status := Status.ERROR.value,
      message := "Fehler: " ++ e,
      duration_ms := t.duration_ms, errors := some [e] }

/-- The report entry `execute_phase` stores for a given outcome. -/
def reportEntry (o : Except String PyVal) (t : Timing) : ReportEntry :=
  match o with
  | .ok _ =>
    { status := "SUCCESS", duration_ms := t.duration_ms,
      timestamp := some t.ts_start, error := none }
  | .error e =>
    { status := "ERROR", duration_ms := t.duration_ms,
      timestamp := none, error := some e }

theorem execute_phase_logs (st : BootstrapState) (p : Phase)
    (o : Except String PyVal) (t : Timing) :
    (execute_phase st p o t).1.logs = st.logs ++ [phaseLog p o t] := by
  cases o <;> rfl

theorem execute_phase_phases (st : BootstrapState) (p : Phase)
    (o : Except String PyVal) (t : Timing) :
    (execute_phase st p o t).1.execution_report.phases
      = dictInsert st.execution_report.phases p.name (reportEntry o t) := by
  cases o <;> rfl

theorem execute_phase_snd (st : BootstrapState) (p : Phase)
    (o : Except String PyVal) (t : Timing) :
    (execute_phase st p o t).2 = isOk o := by
  cases o <;> rfl

theorem dictGet_insert_self (d : List (String × ReportEntry)) (k : String)
    (v : ReportEntry) : dictGet (dictInsert d k v) k = some v := by
  induction d with
  | nil => simp [dictInsert, dictGet]
  | cons p rest ih =>
    by_cases h : p.1 = k
    · simp [dictInsert, dictGet, h]
    · simp [dictInsert, dictGet, h, ih]

theorem dictGet_insert_ne (d : List (String × ReportEntry)) (k k2 : String)
    (v : ReportEntry) (h : k2 ≠ k) :
    dictGet (dictInsert d k2 v) k = dictGet d k := by
  induction d with
  | nil => simp [dictInsert, dictGet, h]
  | cons p rest ih =>
    by_cases hp : p.1 = k2
    · simp [dictInsert, dictGet, hp, h]
    · simp [dictInsert, dictGet, hp, ih]

theorem runLoop_logs (items : List PhaseExec) :
    ∀ st : BootstrapState, (runLoop st items).1.logs
      = st.logs ++ items.map (fun it => phaseLog it.phase it.outcome it.timing) := by
  induction items with
  | nil => intro st; simp [runLoop]
  | cons it rest ih =>
    intro st
    simp [runLoop, ih, execute_phase_logs]

theorem runLoop_count (items : List PhaseExec) :
    ∀ st : BootstrapState,
      (runLoop st items).2 = items.countP (fun it => isOk it.outcome) := by
  induction items with
  | nil => intro st; simp [runLoop]
  | cons it rest ih =>
    intro st
    simp [runLoop, ih, execute_phase_snd, List.countP_cons, Nat.add_comm]

theorem runLoop_phases_not_mem (items : List PhaseExec) (k : String) :
    ∀ st : BootstrapState, k ∉ items.map (fun it => it.phase.name) →
      dictGet (runLoop st items).1.execution_report.phases k
        = dictGet st.execution_report.phases k := by
  induction items with
  | nil => intro st _; simp [runLoop]
  | cons it rest ih =>
    intro st hk
    rw [List.map_cons, List.mem_cons] at hk
    push_neg at hk
    simp only [runLoop]
    rw [ih _ hk.2, execute_phase_phases,
      dictGet_insert_ne _ _ _ _ (fun he => hk.1 he.symm)]

theorem runLoop_phases_of_mem (items : List PhaseExec) :
    ∀ st : BootstrapState, ∀ it ∈ items,
      (items.map (fun i => i.phase.name)).Nodup →
      dictGet (runLoop st items).1.execution_report.phases it.phase.name
        = some (reportEntry it.outcome it.timing) := by
  induction items with
  | nil => intro st it h; exact absurd h (List.not_mem_nil it)
  | cons a rest ih =>
    intro st it hmem hnd
    rw [List.map_cons, List.nodup_cons] at hnd
    rcases List.mem_cons.mp hmem with rfl | h
    · simp only [runLoop]
      rw [runLoop_phases_not_mem rest _ _ hnd.1, execute_phase_phases,
        dictGet_insert_self]
    · simp only [runLoop]
      exact ih _ it h hnd.2

theorem mainRun_logs (s : String) (items : List PhaseExec)
    (checks : List (String × Bool)) (t : Timing) (en : String) :
    (mainRun s items checks t en).logs
      = items.map (fun it => phaseLog it.phase it.outcome it.timing)
        ++ [phaseLog Phase.SELF_TEST (.ok (.bool (phase_11_self_test checks))) t] := by
  simp only [mainRun]
  rw [execute_phase_logs, runLoop_logs]
  simp

theorem phaseLog_phase (p : Phase) (o : Except String PyVal) (t : Timing) :
    (phaseLog p o t).phase = p.name := by
  cases o <;> rfl

theorem mainRun_success_count (s : String) (items : List PhaseExec)
    (checks : List (String × Bool)) (t : Timing) (en : String) :
    (mainRun s items checks t en).report.success_count
      = some (items.countP (fun it => isOk it.outcome)) := by
  simp only [mainRun]
  rw [runLoop_count]

theorem mainRun_total_phases (s : String) (items : List PhaseExec)
    (checks : List (String × Bool)) (t : Timing) (en : String) :
    (mainRun s items checks t en).report.total_phases = some items.length := by
  simp only [mainRun]

theorem countP_success_map (items : List PhaseExec) :
    (items.map (fun it => phaseLog it.phase it.outcome it.timing)).countP
        (fun l => l.status = Status.SUCCESS.value)
      = items.countP (fun it => isOk it.outcome) := by
  rw [List.countP_map]
  apply List.countP_congr
  intro it _
  cases h : it.outcome <;> simp [Function.comp, phaseLog, h, Status.value, isOk]

/-- Claim C1: every error a phase action raises during `execute_phase` is
caught inside `execute_phase`: it is recorded in the log and in the report,
`execute_phase` returns `False` instead of raising, and the driver's loop
still produces one log per registered phase plus the self-check — no
exception from a phase action propagates out of the run. -/
theorem C1_phase_errors_contained :
    (∀ (st : BootstrapState) (p : Phase) (e : String) (t : Timing),
        (execute_phase st p (.error e) t).2 = false
        ∧ (execute_phase st p (.error e) t).1.logs
            = st.logs ++ [phaseLog p (.error e) t]
        ∧ dictGet (execute_phase st p (.error e) t).1.execution_report.phases
            p.name = some (reportEntry (.error e) t))
    ∧ ∀ (s : String) (items : List PhaseExec) (checks : List (String × Bool))
        (t : Timing) (en : String),
        (mainRun s items checks t en).logs.length = items.length + 1 := by
  constructor
  · intro st p e t
    refine ⟨rfl, rfl, ?_⟩
    rw [execute_phase_phases, dictGet_insert_self]
  · intro s items checks t en
    rw [mainRun_logs]
    simp

/-- The probe mapping of `phase_11_self_test` with the probe
"Verzeichnisstruktur" false (e.g. `genesis_core/core` missing) and the other
nine probes true. -/
def c2Checks : List (String × Bool) :=
  [("Verzeichnisstruktur", false), ("Konfiguration", true), ("Logger", true),
   ("ORM-Modelle", true), ("AST-Analyzer", true), ("DCI", true),
   ("AI-Commander", true), ("Orchestrator", true),
   ("Injektions-Engine", true), ("API-Server", true)]

/-- Claim C2 (code bug): with one probe false the conjunction `all_passed`
computed by `phase_11_self_test` is false, yet the run's self-check
`ExecutionLog` has status success with no errors listed, the summary value
`self_test_success` is `True`, and the overall status is reported as
successful — because `execute_phase` discards the value its action returns,
the aggregate probe result never reaches the log, the report or the summary. -/
theorem C2_self_test_result_dropped :
    phase_11_self_test c2Checks = false
    ∧ (mainRun "s" [] c2Checks ⟨"a", "b", 1⟩ "e").self_test_success = true
    ∧ (mainRun "s" [] c2Checks ⟨"a", "b", 1⟩ "e").logs
        = [{ timestamp := "b", phase := "SELF_TEST",
             status := Status.SUCCESS.value,
             message := "Phase erfolgreich abgeschlossen",
             duration_ms := 1, errors := none }]
    ∧ (mainRun "s" [] c2Checks ⟨"a", "b", 1⟩ "e").overall_ok = true :=
  ⟨rfl, rfl, rfl, rfl⟩

/-- Claim C4: a complete run over N registered phases (N ≥ 0) appends exactly
N+1 `ExecutionLog` entries — one per registered phase in registry order,
followed by exactly one entry for the self-check, which is last. -/
theorem C4_log_count_and_order (s : String) (items : List PhaseExec)
    (checks : List (String × Bool)) (t : Timing) (en : String) :
    (mainRun s items checks t en).logs.map (fun l => l.phase)
      = items.map (fun it => it.phase.name) ++ [Phase.SELF_TEST.name]
    ∧ (mainRun s items checks t en).logs.length = items.length + 1 := by
  rw [mainRun_logs]
  constructor
  · simp [phaseLog_phase]
  · simp

/-- Claim C10: `execute_phase` discards the value the phase action returns:
for every action that returns normally — with any value `v`, including
`False` — the appended log has status success, the report entry has status
SUCCESS, `execute_phase` returns `True`, and the entire result is independent
of `v`; the outcome depends solely on whether the action raised. -/
theorem C10_return_value_discarded (st : BootstrapState) (p : Phase)
    (v : PyVal) (t : Timing) :
    (execute_phase st p (.ok v) t).2 = true
    ∧ (execute_phase st p (.ok v) t).1.logs
        = st.logs ++ [phaseLog p (.ok v) t]
    ∧ (phaseLog p (.ok v) t).status = Status.SUCCESS.value
    ∧ dictGet (execute_phase st p (.ok v) t).1.execution_report.phases p.name
        = some { status := "SUCCESS", duration_ms := t.duration_ms,
                 timestamp := some t.ts_start, error := none }
    ∧ execute_phase st p (.ok v) t = execute_phase st p (.ok PyVal.none) t := by
  refine ⟨rfl, rfl, rfl, ?_, rfl⟩
  rw [execute_phase_phases, dictGet_insert_self]
  rfl

/-- Claim C3: after every run, the report's `success_count` equals the number
of phase log entries (the first N entries — the self-check excluded) whose
status is success, and that count is at most `total_phases`, which the report
sets to N. -/
theorem C3_success_count_matches_logs (s : String) (items : List PhaseExec)
    (checks : List (String × Bool)) (t : Timing) (en : String) :
    (mainRun s items checks t en).report.success_count
      = some (((mainRun s items checks t en).logs.take items.length).countP
          (fun l => l.status = Status.SUCCESS.value))
    ∧ (mainRun s items checks t en).report.total_phases = some items.length
    ∧ ((mainRun s items checks t en).logs.take items.length).countP
          (fun l => l.status = Status.SUCCESS.value) ≤ items.length := by
  have htake : (mainRun s items checks t en).logs.take items.length
      = items.map (fun it => phaseLog it.phase it.outcome it.timing) := by
    rw [mainRun_logs, List.take_left' (List.length_map _ _)]
  refine ⟨?_, mainRun_total_phases s items checks t en, ?_⟩
  · rw [htake, countP_success_map, mainRun_success_count]
  · rw [htake]
    calc (items.map (fun it => phaseLog it.phase it.outcome it.timing)).countP
          (fun l => l.status = Status.SUCCESS.value)
        ≤ (items.map (fun it => phaseLog it.phase it.outcome it.timing)).length :=
          List.countP_le_length _
      _ = items.length := List.length_map _ _

theorem mainRun_phases_of_mem (s : String) (items : List PhaseExec)
    (checks : List (String × Bool)) (t : Timing) (en : String)
    (it : PhaseExec) (hmem : it ∈ items)
    (hnd : (items.map (fun i => i.phase.name) ++ [Phase.SELF_TEST.name]).Nodup) :
    dictGet (mainRun s items checks t en).report.phases it.phase.name
      = some (reportEntry it.outcome it.timing) := by
  rw [List.nodup_append] at hnd
  have hin : it.phase.name ∈ items.map (fun i => i.phase.name) :=
    List.mem_map_of_mem _ hmem
  have hne : Phase.SELF_TEST.name ≠ it.phase.name := by
    intro he
    exact hnd.2.2 hin (by rw [← he]; exact List.mem_singleton_self _)
  simp only [mainRun]
  rw [execute_phase_phases, dictGet_insert_ne _ _ _ _ hne]
  exact runLoop_phases_of_mem items _ it hmem hnd.1

/-- Claim C5 counterexample: Python allows an exception whose string form is
empty (`raise Exception()` gives `str(e) == ""`); for a phase action failing
with such an exception, the report entry's error description is the empty
string — the claim's "non-empty error description" does not hold. -/
theorem C5_counterexample :
    dictGet (mainRun "s" [⟨⟨"ALPHA", 1⟩, .error "", ⟨"a", "b", 1⟩⟩] []
        ⟨"c", "d", 1⟩ "e").report.phases "ALPHA"
      = some { status := "ERROR", duration_ms := 1, timestamp := none,
               error := some "" } := by
  rfl

/-- Claim C5 (amended): for any phase whose action fails, the corresponding
entry in the report has status ERROR and carries the error text exactly as
the exception stringifies (possibly the empty string), and every subsequent
registered phase is still attempted — the run's log sequence covers every
registered phase and the self-check regardless of the failure. -/
theorem C5_failed_phase_reported (s : String) (items : List PhaseExec)
    (checks : List (String × Bool)) (t : Timing) (en : String)
    (it : PhaseExec) (e : String) (hmem : it ∈ items)
    (herr : it.outcome = .error e)
    (hnd : (items.map (fun i => i.phase.name) ++ [Phase.SELF_TEST.name]).Nodup) :
    dictGet (mainRun s items checks t en).report.phases it.phase.name
      = some { status := "ERROR", duration_ms := it.timing.duration_ms,
               timestamp := none, error := some e }
    ∧ (mainRun s items checks t en).logs.map (fun l => l.phase)
        = items.map (fun i => i.phase.name) ++ [Phase.SELF_TEST.name] := by
  constructor
  · rw [mainRun_phases_of_mem s items checks t en it hmem hnd, herr]
    rfl
  · rw [mainRun_logs]
    simp [phaseLog_phase]

/-- Witness for C5: a concrete run whose single phase fails with "boom". -/
theorem C5_failed_phase_reported_witness :
    dictGet (mainRun "s" [⟨⟨"BETA", 2⟩, .error "boom", ⟨"a", "b", 3⟩⟩] []
        ⟨"c", "d", 1⟩ "e").report.phases "BETA"
      = some { status := "ERROR", duration_ms := 3, timestamp := none,
               error := some "boom" }
    ∧ (mainRun "s" [⟨⟨"BETA", 2⟩, .error "boom", ⟨"a", "b", 3⟩⟩] []
        ⟨"c", "d", 1⟩ "e").logs.map (fun l => l.phase)
        = ["BETA", "SELF_TEST"] :=
  C5_failed_phase_reported "s" [⟨⟨"BETA", 2⟩, .error "boom", ⟨"a", "b", 3⟩⟩] []
    ⟨"c", "d", 1⟩ "e" ⟨⟨"BETA", 2⟩, .error "boom", ⟨"a", "b", 3⟩⟩ "boom"
    (List.mem_singleton_self _) rfl (by decide)

/-- Claim C6 counterexample: the report entry `execute_phase` stores for a
failing phase has no timestamp key (`execute_phase` only writes `status`,
`error`, `duration_ms` on the error branch) — the claim's "contains a status,
a duration, and a timestamp" fails for failed phases. -/
theorem C6_counterexample :
    dictGet (execute_phase ⟨[], { start_time := "s0" }⟩ ⟨"X", 1⟩
        (.error "boom") ⟨"ts", "td", 5⟩).1.execution_report.phases "X"
      = some { status := "ERROR", duration_ms := 5, timestamp := none,
               error := some "boom" } := by
  rfl

/-- Claim C6 (amended): for every attempted phase the per-phase summary
stored under the phase's name contains a status and a duration; on success it
additionally contains the phase's start timestamp and no error text; on
failure it contains the error text but no timestamp. -/
theorem C6_report_entry_fields (st : BootstrapState) (p : Phase) (t : Timing) :
    (∀ v : PyVal,
      dictGet (execute_phase st p (.ok v) t).1.execution_report.phases p.name
        = some { status := "SUCCESS", duration_ms := t.duration_ms,
                 timestamp := some t.ts_start, error := none })
    ∧ ∀ e : String,
      dictGet (execute_phase st p (.error e) t).1.execution_report.phases p.name
        = some { status := "ERROR", duration_ms := t.duration_ms,
                 timestamp := none, error := some e } := by
  constructor
  · intro v
    rw [execute_phase_phases, dictGet_insert_self]
    rfl
  · intro e
    rw [execute_phase_phases, dictGet_insert_self]
    rfl

/-- Claim C7: for every `ExecutionLog` record a run produces, the `errors`
field is a present, non-empty list exactly when the record's status is the
error status; when the status is the success status, `errors` is absent. -/
theorem C7_errors_iff_error (s : String) (items : List PhaseExec)
    (checks : List (String × Bool)) (t : Timing) (en : String)
    (log : ExecutionLog) (hmem : log ∈ (mainRun s items checks t en).logs) :
    ((∃ l, log.errors = some l ∧ l ≠ []) ↔ log.status = Status.ERROR.value)
    ∧ (log.status = Status.SUCCESS.value → log.errors = none) := by
  rw [mainRun_logs, List.mem_append] at hmem
  have hcase : ∃ (p : Phase) (o : Except String PyVal) (tt : Timing),
      log = phaseLog p o tt := by
    rcases hmem with h | h
    · rcases List.mem_map.mp h with ⟨it, _, he⟩
      exact ⟨it.phase, it.outcome, it.timing, he.symm⟩
    · rw [List.mem_singleton] at h
      exact ⟨Phase.SELF_TEST, .ok (.bool (phase_11_self_test checks)), t, h⟩
  rcases hcase with ⟨p, o, tt, rfl⟩
  cases o <;> simp [phaseLog, Status.value]

/-- Witness for C7: the self-check log record of a concrete run. -/
def c7Log : ExecutionLog :=
  { timestamp := "d", phase := "SELF_TEST", status := "✅",
    message := "Phase erfolgreich abgeschlossen", duration_ms := 1,
    errors := none }

theorem C7_errors_iff_error_witness :
    ((∃ l, c7Log.errors = some l ∧ l ≠ []) ↔ c7Log.status = Status.ERROR.value)
    ∧ (c7Log.status = Status.SUCCESS.value → c7Log.errors = none) :=
  C7_errors_iff_error "s" [] [] ⟨"c", "d", 1⟩ "e" c7Log (by decide)

/-- Claim C8 counterexample: the first phase `main` executes is FILESYSTEM
with ordinal 2, not 1 (INITIALIZATION is never scheduled), and the executed
ordinal sequence is not the contiguous sequence 1..11 — it also skips 10, 11
and 13. -/
theorem C8_counterexample :
    executedOrdinals.head? = some 2
    ∧ executedOrdinals ≠ (List.range executedOrdinals.length).map
        (fun k => k + 1) := by
  decide

/-- Claim C8 (amended): the ordinals of the phases executed in a run are
strictly increasing, but they are neither contiguous nor do they start at 1:
they are 2, 3, 4, 5, 6, 7, 8, 9, 12, 14 for the registered phases, followed
by 15 for the self-check. -/
theorem C8_ordinals_strictly_increasing :
    List.Pairwise (fun a b => a < b) executedOrdinals
    ∧ executedOrdinals = [2, 3, 4, 5, 6, 7, 8, 9, 12, 14, 15] := by
  decide

/-- Folding further class-body assignments over an already-raised
construction error keeps the error: nothing after the raising assignment
executes. -/
theorem foldl_enumStep_error (rest : List (String × Nat)) (e : String) :
    rest.foldl enumStep (.error e) = .error e := by
  induction rest with
  | nil => rfl
  | cons p r ih => simpa [enumStep] using ih

/-- Claim C9 counterexample: a class body registering two phases with the
same ordinal (value) constructs successfully — Python's `Enum` machinery
makes the second name an alias of the first member instead of failing, so
an ordinal collision does not fail registry construction (and no
`DuplicateOrdinal` error exists in the source). -/
theorem C9_counterexample :
    buildEnum [("A", 1), ("B", 1)] = .ok [⟨"A", 1⟩] := by
  rfl

/-- Claim C9 (amended): registering a phase whose name collides with an
already-registered member fails class construction with a `TypeError` before
anything further — in particular before any phase executes — while a
colliding ordinal does not fail: the later name becomes an alias and adds no
canonical member. -/
theorem C9_enum_construction (members : List Phase) (nm : String) (v : Nat) :
    (members.any (fun m => m.name = nm) = true →
      enumStep (.ok members) (nm, v)
        = .error ("TypeError: Attempted to reuse key: " ++ nm))
    ∧ (members.any (fun m => m.name = nm) = false →
       members.any (fun m => m.value = v) = true →
       enumStep (.ok members) (nm, v) = .ok members)
    ∧ ∀ (rest : List (String × Nat)) (w : Nat),
        buildEnum ((nm, v) :: (nm, w) :: rest)
          = .error ("TypeError: Attempted to reuse key: " ++ nm) := by
  refine ⟨?_, ?_, ?_⟩
  · intro h
    simp [enumStep, h]
  · intro h1 h2
    simp [enumStep, h1, h2]
  · intro rest w
    show ((rest.foldl enumStep (enumStep (enumStep (.ok []) (nm, v)) (nm, w)))
      = .error ("TypeError: Attempted to reuse key: " ++ nm))
    have h1 : enumStep (.ok []) (nm, v) = .ok [⟨nm, v⟩] := by
      simp [enumStep]
    rw [h1]
    have h2 : enumStep (.ok [(⟨nm, v⟩ : Phase)]) (nm, w)
        = .error ("TypeError: Attempted to reuse key: " ++ nm) := by
      simp [enumStep]
    rw [h2, foldl_enumStep_error]

/-- Witness for C9: concrete collisions — reassigning the existing name "A"
raises, assigning a new name "B" with the existing value 1 aliases, and a
body that reuses "A" fails construction no matter what follows. -/
theorem C9_enum_construction_witness :
    enumStep (.ok [⟨"A", 9⟩]) ("A", 2)
      = .error "TypeError: Attempted to reuse key: A"
    ∧ enumStep (.ok [⟨"Z", 1⟩]) ("B", 1) = .ok [⟨"Z", 1⟩]
    ∧ buildEnum [("A", 1), ("A", 2), ("C", 3)]
      = .error "TypeError: Attempted to reuse key: A" :=
  ⟨(C9_enum_construction [⟨"A", 9⟩] "A" 2).1 (by decide),
   (C9_enum_construction [⟨"Z", 1⟩] "B" 1).2.1 (by decide) (by decide),
   (C9_enum_construction [] "A" 1).2.2 [("C", 3)] 2⟩
